import Mathlib

/-!
Shallow embedding of the canton-foundry observatory core
(confidence model, dataset validator, GitHub client retry loop,
and field collectors), with theorems checking the natural-language
specification against the code.

Sources embedded:
- scripts/types.ts             (data model, field registries)
- scripts/utils/confidence.ts  (tier transitions, map validation)
- scripts/utils/github-client.ts (retry/backoff loop)
- scripts/validate-data.ts     (dataset validator)
- scripts/collect-github.ts    (field collectors)

Conventions: TypeScript `string | null` becomes `Option String`;
JS truthiness checks on strings (`if (content)`) are modelled as
`≠ ""` on the wrapped value; JS `Record<string, T>` objects become
association lists preserving insertion order; machine integers are
`Nat`/`Int` (no overflow is reachable in the modelled code paths).
-/

/-- `ConfidenceTier` from scripts/types.ts. -/
inductive ConfidenceTier
  | verified
  | self_reported
  | auto_detected
deriving DecidableEq, Repr, Fintype

/-- `Category` from scripts/types.ts (closed enumeration). -/
inductive Category
  | tokenized_assets | data_analytics | naas | developer_tools
  | wallets | exchanges | liquidity | interoperability
  | forensics_security | custody | stablecoins | payments
  | financing | compliance
deriving DecidableEq, Repr

/-- `validator_status` union type of `ObservatoryProject`. -/
inductive ValidatorStatus
  | super_validator | validator | app_provider | none
deriving DecidableEq, Repr

/-- `status` union type of `ObservatoryProject`. -/
inductive ProjectStatus
  | production | testnet | development | inactive | unknown
deriving DecidableEq, Repr

/-- `network` element type of `ObservatoryProject`. -/
inductive NetworkKind
  | mainnet | devnet
deriving DecidableEq, Repr

/-- `ci_status` union type of `ObservatoryProject` (null modelled by `Option`). -/
inductive CiStatus
  | passing | failing | stale | unknown
deriving DecidableEq, Repr

/-- `SecurityAudit` from scripts/types.ts. -/
structure SecurityAudit where
  auditor : String
  date : String
  report_url : Option String
  scope : String
deriving DecidableEq, Repr

/-- `ObservatoryProject` from scripts/types.ts.  The `data_confidence`
`Record<string, ConfidenceTier | null>` is an association list in key
insertion order. -/
structure ObservatoryProject where
  project_id : String
  display_name : String
  entity_name : Option String
  entity_jurisdiction : Option String
  foundation_member : Bool
  validator_status : ValidatorStatus
  website_url : Option String
  contact_url : Option String
  description : String
  category : List Category
  partnerships : List String
  status : ProjectStatus
  network : List NetworkKind
  canton_sdk_version : Option String
  last_verified_activity : Option String
  launch_date : Option String
  featured_app : Option Bool
  open_source : Bool
  repo_url : Option String
  license_type : Option String
  security_audit : Option SecurityAudit
  has_tests : Option Bool
  test_count : Option Nat
  has_ci : Option Bool
  ci_status : Option CiStatus
  has_documentation : Bool
  documentation_url : Option String
  tech_stack : List String
  tx_count_30d : Option Nat
  tx_count_90d : Option Nat
  unique_parties_30d : Option Nat
  cc_burned_30d : Option Nat
  featured_markers_30d : Option Nat
  onchain_since : Option String
  created_at : String
  updated_at : String
  claimed : Bool
  claimed_by : Option String
  claimed_at : Option String
  data_confidence : List (String × Option ConfidenceTier)
  last_auto_refresh : Option String
  notes : Option String
deriving DecidableEq, Repr

/-- `OBSERVATORY_MANAGED_FIELDS` from scripts/types.ts. -/
def OBSERVATORY_MANAGED_FIELDS : List String :=
  ["project_id", "category", "created_at", "updated_at", "claimed",
   "claimed_by", "claimed_at", "data_confidence", "last_auto_refresh",
   "notes", "partnerships"]

/-- The property names of the `ObservatoryProject` interface, in
declaration order; models the key set used by `key in record`. -/
def projectFieldNames : List String :=
  ["project_id", "display_name", "entity_name", "entity_jurisdiction",
   "foundation_member", "validator_status", "website_url", "contact_url",
   "description", "category", "partnerships", "status", "network",
   "canton_sdk_version", "last_verified_activity", "launch_date",
   "featured_app", "open_source", "repo_url", "license_type",
   "security_audit", "has_tests", "test_count", "has_ci", "ci_status",
   "has_documentation", "documentation_url", "tech_stack",
   "tx_count_30d", "tx_count_90d", "unique_parties_30d", "cc_burned_30d",
   "featured_markers_30d", "onchain_since", "created_at", "updated_at",
   "claimed", "claimed_by", "claimed_at", "data_confidence",
   "last_auto_refresh", "notes"]

/-- Models `record[key] === null` for the dynamic field lookup
`p as unknown as Record<string, unknown>`: true exactly when the named
field currently holds `null`.  Fields whose TypeScript type cannot be
null (strings, booleans, arrays, objects) and unknown keys (where the
lookup yields `undefined`, and `undefined === null` is false) give
`false`. -/
def fieldIsNull (p : ObservatoryProject) (key : String) : Bool :=
  match key with
  | "entity_name" => p.entity_name.isNone
  | "entity_jurisdiction" => p.entity_jurisdiction.isNone
  | "website_url" => p.website_url.isNone
  | "contact_url" => p.contact_url.isNone
  | "canton_sdk_version" => p.canton_sdk_version.isNone
  | "last_verified_activity" => p.last_verified_activity.isNone
  | "launch_date" => p.launch_date.isNone
  | "featured_app" => p.featured_app.isNone
  | "repo_url" => p.repo_url.isNone
  | "license_type" => p.license_type.isNone
  | "security_audit" => p.security_audit.isNone
  | "has_tests" => p.has_tests.isNone
  | "test_count" => p.test_count.isNone
  | "has_ci" => p.has_ci.isNone
  | "ci_status" => p.ci_status.isNone
  | "documentation_url" => p.documentation_url.isNone
  | "tx_count_30d" => p.tx_count_30d.isNone
  | "tx_count_90d" => p.tx_count_90d.isNone
  | "unique_parties_30d" => p.unique_parties_30d.isNone
  | "cc_burned_30d" => p.cc_burned_30d.isNone
  | "featured_markers_30d" => p.featured_markers_30d.isNone
  | "onchain_since" => p.onchain_since.isNone
  | "claimed_by" => p.claimed_by.isNone
  | "claimed_at" => p.claimed_at.isNone
  | "last_auto_refresh" => p.last_auto_refresh.isNone
  | "notes" => p.notes.isNone
  | _ => false

/-- `isValidTransition` from scripts/utils/confidence.ts, translated
branch for branch. -/
def isValidTransition
    (from_ to_ : Option ConfidenceTier) : Bool :=
  if from_ = none ∨ to_ = none then
    true
  else if from_ = some .auto_detected ∧ to_ = some .verified then
    true
  else if from_ = some .self_reported ∧ to_ = some .verified then
    true
  else if from_ = some .verified ∧ to_ = some .self_reported then
    true
  else if from_ = to_ then
    true
  else if from_ = some .auto_detected ∧ to_ = some .self_reported then
    true
  else
    false

/-- String form of a confidence tier, as serialized into error
messages (the JSON enum literals). -/
def tierName : ConfidenceTier → String
  | .verified => "verified"
  | .self_reported => "self_reported"
  | .auto_detected => "auto_detected"

/-- `validateConfidenceMap` from scripts/utils/confidence.ts: iterates
`Object.entries(project.data_confidence)`, flagging managed keys,
unknown keys, null values with non-null tiers, and non-null values
with null tiers. -/
def validateConfidenceMap (p : ObservatoryProject) : List String :=
  p.data_confidence.flatMap fun entry =>
    let field := entry.1
    let tier := entry.2
    if field ∈ OBSERVATORY_MANAGED_FIELDS then
      ["Field \"" ++ field ++ "\" is observatory-managed and should " ++
       "not have a confidence tier"]
    else if field ∉ projectFieldNames then
      ["Confidence tier for \"" ++ field ++ "\" but field does not " ++
       "exist on project"]
    else
      (if fieldIsNull p field ∧ tier ≠ none then
        ["Field \"" ++ field ++ "\" is null but has confidence " ++
         "tier \"" ++ tierName (tier.getD .verified) ++ "\""]
      else []) ++
      (if ¬ fieldIsNull p field ∧ tier = none then
        ["Field \"" ++ field ++ "\" has value but confidence tier is null"]
      else [])

/-- `ValidationResult` from scripts/validate-data.ts. -/
structure ValidationResult where
  valid : Bool
  errors : List String
deriving DecidableEq, Repr

/-- The validator's top-level input: a parsed JSON document that is
either an array of project records or some non-array value
(`Array.isArray(data)` distinguishes the two). -/
inductive DatasetInput
  | arr (projects : List ObservatoryProject)
  | notArray

/-- Character class `[a-z0-9]` of the project-id pattern. -/
def isIdChar (c : Char) : Bool :=
  (Char.ofNat 97 ≤ c && c ≤ Char.ofNat 122) ||
  (Char.ofNat 48 ≤ c && c ≤ Char.ofNat 57)

/-- The pattern of `checkIdFormat`:
a string matches exactly when it is non-empty, starts and
ends with `[a-z0-9]`, and every character is `[a-z0-9-]`. -/
def isValidProjectId (s : String) : Bool :=
  match s.toList with
  | [] => false
  | c :: cs =>
    isIdChar c &&
    cs.all (fun d => isIdChar d || d = Char.ofNat 45) &&
    isIdChar ((c :: cs).getLastD c)

/-- `checkUniqueIds` from scripts/validate-data.ts: the running
`seen` set is threaded explicitly. -/
def checkUniqueIdsGo (seen : List String) :
    List ObservatoryProject → List String
  | [] => []
  | p :: rest =>
    (if p.project_id ∈ seen then
      ["Duplicate project_id: \"" ++ p.project_id ++ "\""]
    else []) ++ checkUniqueIdsGo (p.project_id :: seen) rest

/-- `checkUniqueIds` from scripts/validate-data.ts. -/
def checkUniqueIds (projects : List ObservatoryProject) : List String :=
  checkUniqueIdsGo [] projects

/-- `checkIdFormat` from scripts/validate-data.ts. -/
def checkIdFormat (projects : List ObservatoryProject) : List String :=
  projects.flatMap fun p =>
    if ¬ isValidProjectId p.project_id then
      ["Invalid project_id format: \"" ++ p.project_id ++ "\" " ++
       "(must be lowercase alphanumeric with hyphens)"]
    else []

/-- `checkPartnershipRefs` from scripts/validate-data.ts. -/
def checkPartnershipRefs (projects : List ObservatoryProject) : List String :=
  let ids := projects.map (·.project_id)
  projects.flatMap fun p =>
    p.partnerships.flatMap fun partner =>
      if partner ∉ ids then
        ["Project \"" ++ p.project_id ++ "\" references unknown " ++
         "partnership: \"" ++ partner ++ "\""]
      else []

/-- `checkConfidenceKeys` from scripts/validate-data.ts: first loop
over `Object.keys` (managed / unknown keys, with `continue` after the
managed error), second loop over `Object.entries` flagging null values
with non-null confidence.  Note the second loop has no clause for a
non-null value with a null tier. -/
def checkConfidenceKeys (projects : List ObservatoryProject) : List String :=
  projects.flatMap fun p =>
    (p.data_confidence.flatMap fun entry =>
      if entry.1 ∈ OBSERVATORY_MANAGED_FIELDS then
        ["Project \"" ++ p.project_id ++ "\": confidence key " ++
         "\"" ++ entry.1 ++ "\" is observatory-managed"]
      else if entry.1 ∉ projectFieldNames then
        ["Project \"" ++ p.project_id ++ "\": confidence key " ++
         "\"" ++ entry.1 ++ "\" does not match any project field"]
      else []) ++
    (p.data_confidence.flatMap fun entry =>
      if fieldIsNull p entry.1 ∧ entry.2 ≠ none then
        ["Project \"" ++ p.project_id ++ "\": field \"" ++ entry.1 ++
         "\" is " ++ "null but confidence is \"" ++
         tierName (entry.2.getD .verified) ++ "\""]
      else [])

/-- Splits a character list at every occurrence of `sep`, keeping
empty segments, like the JavaScript `String.prototype.split` with a
single-character separator. -/
def splitOnChar (sep : Char) : List Char → List (List Char)
  | [] => [[]]
  | c :: rest =>
    let r := splitOnChar sep rest
    if c = sep then [] :: r
    else
      match r with
      | [] => [[c]]
      | h :: t => (c :: h) :: t

/-- `String.prototype.split` with a one-character separator. -/
def jsSplit (s : String) (sep : Char) : List String :=
  (splitOnChar sep s.toList).map fun cs => String.mk cs

/-- Whether `needle` occurs as a contiguous substring of `hay`
(JavaScript `String.prototype.includes`, used here to model unanchored
regular-expression fragments). -/
def strContains (hay needle : String) : Bool :=
  hay.toList.tails.any fun t => needle.toList.isPrefixOf t

/-- `String.prototype.startsWith`. -/
def strStartsWith (s pre : String) : Bool :=
  pre.toList.isPrefixOf s.toList

/-- `String.prototype.endsWith`. -/
def strEndsWith (s suf : String) : Bool :=
  suf.toList.isSuffixOf s.toList

/-- Drops the last `n` characters. -/
def strDropRight (s : String) (n : Nat) : String :=
  String.mk (s.toList.take (s.toList.length - n))

/-- Drops the first `n` characters (JavaScript `slice(n)`). -/
def strDrop (s : String) (n : Nat) : String :=
  String.mk (s.toList.drop n)

/-- Keeps the first `n` characters (JavaScript `substring(0, n)`). -/
def strTake (s : String) (n : Nat) : String :=
  String.mk (s.toList.take n)

/-- JavaScript whitespace class `\s` restricted to the characters that
occur in the modelled inputs (space, tab, carriage return, newline). -/
def isWsChar (c : Char) : Bool :=
  c = Char.ofNat 32 || c = Char.ofNat 9 || c = Char.ofNat 13 ||
  c = Char.ofNat 10

/-- `String.prototype.trim`. -/
def strTrim (s : String) : String :=
  String.mk
    (((s.toList.dropWhile isWsChar).reverse.dropWhile isWsChar).reverse)

/-- True when every character of `s` is a decimal digit and `s` is
non-empty. -/
def allDigits (s : String) : Bool :=
  s.toList.length > 0 && s.toList.all Char.isDigit

/-- Numeric value of a digit string (most-significant digit first). -/
def toNatD (s : String) : Nat :=
  s.toList.foldl (fun n c => n * 10 + (c.toNat - 48)) 0

/-- Gregorian leap-year rule. -/
def isLeapYear (y : Nat) : Bool :=
  y % 4 = 0 && (y % 100 ≠ 0 || y % 400 = 0)

/-- Days in a month of a given year. -/
def daysInMonth (y m : Nat) : Nat :=
  if m = 2 then (if isLeapYear y then 29 else 28)
  else if m = 4 ∨ m = 6 ∨ m = 9 ∨ m = 11 then 30
  else 31

/-- Valid `YYYY-MM-DD` calendar date. -/
def validDateStr (s : String) : Bool :=
  match jsSplit s (Char.ofNat 45) with
  | [y, m, d] =>
    allDigits y && allDigits m && allDigits d &&
    y.toList.length = 4 && m.toList.length = 2 && d.toList.length = 2 &&
    1 ≤ toNatD m && toNatD m ≤ 12 &&
    1 ≤ toNatD d && toNatD d ≤ daysInMonth (toNatD y) (toNatD m)
  | _ => false

/-- Valid `HH:MM:SS` or `HH:MM:SS.sss` time of day. -/
def validTimeStr (t : String) : Bool :=
  match jsSplit t (Char.ofNat 58) with
  | [h, m, s] =>
    allDigits h && allDigits m &&
    h.toList.length = 2 && m.toList.length = 2 &&
    toNatD h ≤ 23 && toNatD m ≤ 59 &&
    (match jsSplit s (Char.ofNat 46) with
     | [ss] => allDigits ss && ss.toList.length = 2 && toNatD ss ≤ 59
     | [ss, frac] =>
       allDigits ss && ss.toList.length = 2 && toNatD ss ≤ 59 &&
       allDigits frac
     | _ => false)
  | _ => false

/-- Modelled from the spec: `checkDateFields` calls the JavaScript
builtin `Date.parse`, which is runtime library code absent from the
repository.  The spec requires that "all date-only fields parse as
valid calendar dates; all timestamp fields parse as valid date-times",
so this model accepts valid ISO calendar dates and ISO date-times
(date, `T`, time, optional fractional seconds, optional `Z`). -/
def jsDateParses (s : String) : Bool :=
  validDateStr s ||
  (match jsSplit s (Char.ofNat 84) with
   | [d, t] =>
     validDateStr d &&
     (if strEndsWith t "Z" then validTimeStr (strDropRight t 1)
      else validTimeStr t)
   | _ => false)

/-- Models `record[field]` restricted to `typeof val === "string"`:
returns the string currently stored in the named field, if any.  Only
the date/datetime fields inspected by `checkDateFields` are needed. -/
def stringFieldValue (p : ObservatoryProject) (key : String) : Option String :=
  match key with
  | "last_verified_activity" => p.last_verified_activity
  | "launch_date" => p.launch_date
  | "onchain_since" => p.onchain_since
  | "created_at" => some p.created_at
  | "updated_at" => some p.updated_at
  | "claimed_at" => p.claimed_at
  | "last_auto_refresh" => p.last_auto_refresh
  | _ => none

/-- The `dateFields` list of `checkDateFields`. -/
def dateOnlyFields : List String :=
  ["last_verified_activity", "launch_date", "onchain_since"]

/-- The `datetimeFields` list of `checkDateFields`. -/
def datetimeFields : List String :=
  ["created_at", "updated_at", "claimed_at", "last_auto_refresh"]

/-- `checkDateFields` from scripts/validate-data.ts. -/
def checkDateFields (projects : List ObservatoryProject) : List String :=
  projects.flatMap fun p =>
    (dateOnlyFields.flatMap fun f =>
      match stringFieldValue p f with
      | some v =>
        if ¬ jsDateParses v then
          ["Project \"" ++ p.project_id ++ "\": invalid date in " ++
           "\"" ++ f ++ "\": \"" ++ v ++ "\""]
        else []
      | none => []) ++
    (datetimeFields.flatMap fun f =>
      match stringFieldValue p f with
      | some v =>
        if ¬ jsDateParses v then
          ["Project \"" ++ p.project_id ++ "\": invalid datetime in " ++
           "\"" ++ f ++ "\": \"" ++ v ++ "\""]
        else []
      | none => [])

/-- Modelled from the spec: `createValidator` compiles the external
declarative JSON Schema document `data/schema.json`, which is not part
of the source tree.  Per the spec, step 1 of validation checks
"types, enums, required fields, string length/format constraints,
numeric minimums"; in this typed embedding the types, enums, required
fields and numeric minimums are enforced by the Lean types themselves,
leaving the root array requirement, the `description` length bound
(≤ 280) and the non-empty `category` constraint. -/
def schemaCheck : DatasetInput → List String
  | .notArray => ["(root): must be array"]
  | .arr ps =>
    ps.flatMap fun p =>
      (if p.description.length > 280 then
        ["/description: must NOT have more than 280 characters " ++
         "(project \"" ++ p.project_id ++ "\")"]
      else []) ++
      (if p.category = [] then
        ["/category: must NOT have fewer than 1 items " ++
         "(project \"" ++ p.project_id ++ "\")"]
      else [])

/-- The `allErrors` accumulator of `validateDataset` for array input:
schema errors followed by the five cross-reference checks, in push
order. -/
def datasetErrors (projects : List ObservatoryProject) : List String :=
  schemaCheck (.arr projects) ++
  checkUniqueIds projects ++
  checkIdFormat projects ++
  checkPartnershipRefs projects ++
  checkConfidenceKeys projects ++
  checkDateFields projects

/-- `validateDataset` from scripts/validate-data.ts: schema validation
first, early exit for non-array input, then the five cross-reference
checks, accumulating all error strings (`datasetErrors`); the validity
flag is `allErrors.length === 0`. -/
def validateDataset (data : DatasetInput) : ValidationResult :=
  match data with
  | .notArray => ⟨false, schemaCheck data⟩
  | .arr projects =>
    ⟨(datasetErrors projects).length = 0, datasetErrors projects⟩

/-! ### GitHub client (scripts/utils/github-client.ts) -/

/-- `MAX_RETRIES` from scripts/utils/github-client.ts. -/
def MAX_RETRIES : Nat := 3

/-- `INITIAL_BACKOFF_MS` from scripts/utils/github-client.ts. -/
def INITIAL_BACKOFF_MS : Int := 1000

/-- `RATE_LIMIT_THRESHOLD` from scripts/utils/github-client.ts. -/
def RATE_LIMIT_THRESHOLD : Int := 100

/-- `GitHubError` from scripts/utils/github-client.ts. -/
structure GHError where
  status : Nat
  message : String
  retryable : Bool
deriving DecidableEq, Repr

/-- The client's rate-limit snapshot `lastRateLimit`. -/
structure RateLimitState where
  remaining : Int
  reset : Int
deriving DecidableEq, Repr

/-- One upstream outcome for one request attempt: a network-level
failure (fetch rejects, no response) or an HTTP response with a status
code and optional `X-RateLimit-Remaining` / `X-RateLimit-Reset`
headers. -/
inductive Outcome
  | net
  | resp (status : Nat) (remainingHeader resetHeader : Option Int)
deriving DecidableEq, Repr

/-- Decimal rendering of a natural number (structural fuel version so
that concrete values reduce in the kernel). -/
def natDecimalAux : Nat → Nat → List Char
  | 0, _ => []
  | fuel + 1, n =>
    if n = 0 then []
    else natDecimalAux fuel (n / 10) ++ [Char.ofNat (48 + n % 10)]

/-- Decimal rendering of a natural number. -/
def natDecimal (n : Nat) : String :=
  if n = 0 then "0" else String.mk (natDecimalAux n n)

/-- Decimal rendering of an integer (JavaScript template-literal
rendering of an integral number). -/
def intDecimal (i : Int) : String :=
  if i < 0 then "-" ++ natDecimal i.natAbs else natDecimal i.natAbs

/-- `updateRateLimit`: each header, when present, overwrites the
corresponding snapshot component. -/
def updateRateLimit (rl : RateLimitState)
    (remainingHeader resetHeader : Option Int) : RateLimitState :=
  ⟨remainingHeader.getD rl.remaining, resetHeader.getD rl.reset⟩

/-- `checkRateLimit`: the pacing sleeps (in ms) performed before an
attempt, given the current snapshot and the current epoch-seconds
clock value. -/
def paceSleeps (rl : RateLimitState) (now : Int) : List Int :=
  if rl.remaining < RATE_LIMIT_THRESHOLD then
    let waitSeconds : Int := max 0 (rl.reset - now + 1)
    if 0 < waitSeconds ∧ waitSeconds < 3600 then [waitSeconds * 1000]
    else []
  else []

/-- Observable outcome of `GitHubClient.get`: the surfaced result (the
response payload is abstracted to its status code plus the returned
rate-limit snapshot), the number of fetch attempts performed, and the
backoff and pacing sleeps in order. -/
structure RunResult where
  result : Except GHError (Nat × RateLimitState)
  attempts : Nat
  backoffSleeps : List Int
  paceSleeps : List Int
deriving Repr

/-- The retry loop of `GitHubClient.get`, one constructor case per
loop iteration.  `f attempt` is the upstream outcome of the fetch on
that attempt; `now` is the (constant) epoch-seconds clock read by
`checkRateLimit`.  `fuel` starts at `MAX_RETRIES + 1` and reaching
zero models loop exit with `throw lastError ?? unknown`.  Non-retryable
errors surface immediately (the `catch` rethrows them); retryable
errors (`403` with exhausted quota, `5xx`, network failures) record
`lastError` and continue, except that a network failure on the final
attempt is thrown from inside the `catch`. -/
def ghGetFrom (f : Nat → Outcome) (now : Int) :
    Nat → Nat → RateLimitState → Option GHError → RunResult
  | 0, _, _, lastError =>
    ⟨.error (lastError.getD ⟨0, "Unknown error after retries", false⟩),
     0, [], []⟩
  | fuel + 1, attempt, rl, _lastError =>
    let bw : List Int :=
      if attempt > 0 then [INITIAL_BACKOFF_MS * 2 ^ (attempt - 1)] else []
    let pw := paceSleeps rl now
    match f attempt with
    | .net =>
      let e : GHError := ⟨0, "Network error", true⟩
      if attempt = MAX_RETRIES then ⟨.error e, 1, bw, pw⟩
      else
        let r := ghGetFrom f now fuel (attempt + 1) rl (some e)
        ⟨r.result, r.attempts + 1, bw ++ r.backoffSleeps, pw ++ r.paceSleeps⟩
    | .resp status remH resetH =>
      let rl' := updateRateLimit rl remH resetH
      if status = 404 then
        ⟨.error ⟨404, "Not found", false⟩, 1, bw, pw⟩
      else if status = 403 then
        if rl'.remaining ≤ 0 then
          let r := ghGetFrom f now fuel (attempt + 1) rl'
            (some ⟨403, "Rate limit exceeded", true⟩)
          ⟨r.result, r.attempts + 1, bw ++ r.backoffSleeps, pw ++ r.paceSleeps⟩
        else
          ⟨.error ⟨403, "Forbidden", false⟩, 1, bw, pw⟩
      else if status = 409 then
        ⟨.error ⟨409, "Conflict (likely empty repository)", false⟩, 1, bw, pw⟩
      else if 500 ≤ status then
        let r := ghGetFrom f now fuel (attempt + 1) rl'
          (some ⟨status, "Server error: " ++ natDecimal status, true⟩)
        ⟨r.result, r.attempts + 1, bw ++ r.backoffSleeps, pw ++ r.paceSleeps⟩
      else if ¬ (200 ≤ status ∧ status ≤ 299) then
        ⟨.error ⟨status, "HTTP " ++ natDecimal status, false⟩, 1, bw, pw⟩
      else
        ⟨.ok (status, rl'), 1, bw, pw⟩

/-- `GitHubClient.get`: the loop starting at attempt 0 with the
constructor-time snapshot `{ remaining: 5000, reset: 0 }` and no
recorded error. -/
def ghGet (f : Nat → Outcome) (now : Int) : RunResult :=
  ghGetFrom f now (MAX_RETRIES + 1) 0 ⟨5000, 0⟩ none

/-! ### Field collectors (scripts/collect-github.ts) -/

/-- One entry of the recursive tree listing. -/
structure TreeEntry where
  path : String
  type : String
  size : Option Nat := none
deriving DecidableEq, Repr

/-- Models `[...new Set(xs)]`: deduplication keeping the first
occurrence, in insertion order. -/
def jsSetAddAll (acc : List String) : List String → List String
  | [] => acc
  | x :: xs => jsSetAddAll (if x ∈ acc then acc else acc ++ [x]) xs

/-- Insertion-ordered deduplication, as iterating a JavaScript `Set`
built from `xs`. -/
def jsSetList (xs : List String) : List String :=
  jsSetAddAll [] xs

/-- A commit of the commit-history response, reduced to the one field
read by the collector (`commit.author.date`). -/
structure CommitEntry where
  date : String
deriving DecidableEq, Repr

/-- `collectLastActivity` from scripts/collect-github.ts, as a function
of the commit-history call's outcome.  Errors that are not
`GitHubError`s are rethrown by the source and outside this model (the
mocked client only ever produces classified errors). -/
def collectLastActivity (resp : Except GHError (List CommitEntry)) :
    Option String × List String :=
  match resp with
  | .ok data =>
    if data.length = 0 then (none, ["No commits found"])
    else
      match data.head? with
      | some c =>
        if c.date = "" then (none, [])
        else (some (strTake c.date 10), [])
      | none => (none, [])
  | .error e =>
    if e.status = 409 then (none, ["Empty repository"])
    else (none, ["Could not fetch commits: " ++ e.message])

/-- `parseSdkVersion` from scripts/collect-github.ts: the multiline
regular expression `^sdk-version:\s*(.+)$` matches the first line that
starts with `sdk-version:` followed by at least one further character;
the captured group, trimmed, is returned (greedy `\s*` plus trailing
`trim()` amount to trimming the remainder of the line). -/
def parseSdkVersion (yamlContent : String) : Option String :=
  ((jsSplit yamlContent (Char.ofNat 10)).find? fun l =>
    strStartsWith l "sdk-version:" && decide (12 < l.toList.length)).map
    fun l => strTrim (strDrop l 12)

/-- The integer value of one dot-separated component under
`Number(...)` (digit strings and the empty string; non-numeric
components would be `NaN` in JavaScript and are outside the modelled
domain — the theorems below hypothesise numeric components). -/
def semverComponent (s : String) : Int :=
  (toNatD s : Int)

/-- `compareSemver` from scripts/collect-github.ts: lexicographic
comparison of the first three numeric dot-components, missing
components treated as 0. -/
def compareSemver (a b : String) : Int :=
  let pa := (jsSplit a (Char.ofNat 46)).map semverComponent
  let pb := (jsSplit b (Char.ofNat 46)).map semverComponent
  let a0 := pa.getD 0 0
  let b0 := pb.getD 0 0
  let a1 := pa.getD 1 0
  let b1 := pb.getD 1 0
  let a2 := pa.getD 2 0
  let b2 := pb.getD 2 0
  if a0 ≠ b0 then a0 - b0
  else if a1 ≠ b1 then a1 - b1
  else if a2 ≠ b2 then a2 - b2
  else 0

/-- The `le` form of `compareSemver` used to model
`versions.sort(compareSemver)`. -/
def semverLe (a b : String) : Bool :=
  compareSemver a b ≤ 0

/-- `semverLe` as a decidable relation.  JavaScript
`Array.prototype.sort` with a consistent comparator produces a stable
sorted permutation, which is exactly `List.insertionSort` under this
relation. -/
def semverLeP (a b : String) : Prop :=
  semverLe a b = true

instance : DecidableRel semverLeP :=
  fun a b => inferInstanceAs (Decidable (semverLe a b = true))

/-- Lexicographic comparison of character lists by code point,
modelling the default JavaScript sort comparator (UTF-16 code units;
identical for the ASCII tags produced by the collectors). -/
def charListLe : List Char → List Char → Bool
  | [], _ => true
  | _ :: _, [] => false
  | a :: as, b :: bs =>
    if a.toNat < b.toNat then true
    else if b.toNat < a.toNat then false
    else charListLe as bs

/-- Default JavaScript string comparison, as a Bool. -/
def strLeB (a b : String) : Bool :=
  charListLe a.toList b.toList

/-- Default JavaScript string comparison, as a decidable relation. -/
def jsStrLe (a b : String) : Prop :=
  strLeB a b = true

instance : DecidableRel jsStrLe :=
  fun a b => inferInstanceAs (Decidable (strLeB a b = true))

/-- The subdirectory `daml.yaml` paths of the tree
(`type === "blob" && path.endsWith("/daml.yaml")`). -/
def damlYamlPaths (tree : List TreeEntry) : List String :=
  (tree.filter fun e =>
    e.type = "blob" && strEndsWith e.path "/daml.yaml").map (·.path)

/-- The SDK version strings collected from the subdirectory
`daml.yaml` files: fetched content must be truthy, parse must succeed
and yield a truthy version. -/
def sdkVersionsFound (tree : List TreeEntry)
    (files : String → Option String) : List String :=
  (damlYamlPaths tree).flatMap fun p =>
    match files p with
    | some c =>
      if c ≠ "" then
        match parseSdkVersion c with
        | some v => if v ≠ "" then [v] else []
        | none => []
      else []
    | none => []

/-- The tree-scan fallback of `collectSdkVersion` (reached when the
root `daml.yaml` is absent or empty). -/
def collectSdkFallback (tree : List TreeEntry)
    (files : String → Option String) : Option String × List String :=
  if damlYamlPaths tree = [] then (none, [])
  else
    let versions := sdkVersionsFound tree files
    if versions = [] then (none, ["Could not parse any daml.yaml files"])
    else
      let notes :=
        if versions.length > 1 then
          let unique := jsSetList versions
          if unique.length > 1 then
            ["Multiple SDK versions detected: " ++
             String.intercalate ", " unique]
          else []
        else []
      ((List.insertionSort semverLeP versions).getLast?, notes)

/-- `collectSdkVersion` from scripts/collect-github.ts.  `rootContent`
is the result of `getFileContent(owner, repo, "daml.yaml")` (`none`
models a 404); `files` gives each subdirectory file's content. -/
def collectSdkVersion (rootContent : Option String)
    (tree : List TreeEntry) (files : String → Option String) :
    Option String × List String :=
  match rootContent with
  | some content =>
    if content ≠ "" then
      match parseSdkVersion content with
      | some v =>
        if v ≠ "" then (some v, [])
        else (none, ["Could not parse daml.yaml"])
      | none => (none, ["Could not parse daml.yaml"])
    else collectSdkFallback tree files
  | none => collectSdkFallback tree files

/-- `CODE_EXTENSIONS` from scripts/collect-github.ts. -/
def CODE_EXTENSIONS : List String :=
  [".ts", ".js", ".py", ".java", ".scala", ".daml", ".hs", ".rs",
   ".go", ".rb", ".kt"]

/-- `getExtension` from scripts/collect-github.ts: the substring from
the last `.` (empty when there is no dot). -/
def getExtension (p : String) : String :=
  let parts := jsSplit p (Char.ofNat 46)
  if parts.length ≤ 1 then "" else "." ++ parts.getLastD ""

/-- `TEST_FILE_PATTERNS` from scripts/collect-github.ts, one
disjunct per ecosystem regular expression. -/
def matchesTestPattern (path : String) : Bool :=
  (strEndsWith path "Test.daml" || strEndsWith path "Tests.daml") ||
  (strEndsWith path ".test.ts" || strEndsWith path ".spec.ts" ||
   strContains path "__tests__/") ||
  (strEndsWith path ".test.js" || strEndsWith path ".spec.js" ||
   strContains path "__tests__/") ||
  strStartsWith path "src/test/" ||
  ((strEndsWith path ".py" && strContains (strDropRight path 3) "test_") ||
   strEndsWith path "_test.py")

/-- `collectTests` from scripts/collect-github.ts. -/
def collectTests (tree : List TreeEntry) (truncated : Bool) :
    Option Bool × Option Nat × List String :=
  if tree.length = 0 then (none, none, [])
  else
    let testFiles := tree.filter fun e =>
      e.type = "blob" &&
      (CODE_EXTENSIONS.contains (getExtension e.path) ||
       strEndsWith (getExtension e.path) ".daml") &&
      matchesTestPattern e.path
    if testFiles.length = 0 then (some false, none, [])
    else if truncated then
      (some true, none, ["Test count may be incomplete due to large repo"])
    else
      (some true, some testFiles.length,
       ["Found " ++ natDecimal testFiles.length ++
        " test files (approximate count)"])

/-- `CI_CONFIG_PATTERNS` from scripts/collect-github.ts.  The first
pattern `^\.github\/workflows\/.*\.ya?ml$` is equivalent to the
prefix/suffix conjunction below (no string shorter than prefix plus
suffix can satisfy both, so the conjunction accepts exactly the
regular expression's language); the other four patterns are anchored
literals. -/
def isCiConfigPath (p : String) : Bool :=
  (strStartsWith p ".github/workflows/" &&
   (strEndsWith p ".yml" || strEndsWith p ".yaml")) ||
  p = ".circleci/config.yml" ||
  p = "Jenkinsfile" ||
  p = ".gitlab-ci.yml" ||
  p = ".travis.yml"

/-- One workflow run of the CI runs response; `updated_at` is the
run's timestamp as epoch milliseconds (`new Date(...).getTime()`). -/
structure WorkflowRun where
  conclusion : String
  updated_at : Int
deriving DecidableEq, Repr

/-- `STALE_CI_DAYS` from scripts/collect-github.ts. -/
def STALE_CI_DAYS : Int := 90

/-- Milliseconds per day (`1000 * 60 * 60 * 24`). -/
def MS_PER_DAY : Int := 86400000

/-- The CI config files of the tree. -/
def ciConfigFiles (tree : List TreeEntry) : List TreeEntry :=
  tree.filter fun e => e.type = "blob" && isCiConfigPath e.path

/-- `collectCi` from scripts/collect-github.ts, as a function of the
tree, the outcome of the workflow-runs call (only consulted on the
GitHub Actions path), and the current clock in epoch milliseconds.
`daysSince` is `Math.floor` of the real division, i.e. `Int.fdiv`. -/
def collectCi (tree : List TreeEntry)
    (runsResp : Except GHError (List WorkflowRun)) (now : Int) :
    Option Bool × Option CiStatus × List String :=
  if tree.length = 0 then (none, none, [])
  else
    let ciFiles := ciConfigFiles tree
    if ciFiles.length = 0 then (some false, none, [])
    else if ¬ ciFiles.any (fun f => strStartsWith f.path ".github/workflows/") then
      (some true, some .unknown, ["Non-GitHub CI detected; status unknown"])
    else
      match runsResp with
      | .error e =>
        (some true, some .unknown, ["Could not fetch CI runs: " ++ e.message])
      | .ok runs =>
        match runs.head? with
        | none => (some true, some .unknown, [])
        | some run =>
          let daysSince : Int := (now - run.updated_at).fdiv MS_PER_DAY
          if daysSince > STALE_CI_DAYS then
            (some true, some .stale,
             ["Last CI run was " ++ intDecimal daysSince ++
              " days ago (stale)"])
          else
            (some true,
             some (if run.conclusion = "success" then CiStatus.passing
                   else if run.conclusion = "failure" then CiStatus.failing
                   else CiStatus.unknown),
             [])

/-- `FRAMEWORK_FILES` from scripts/collect-github.ts. -/
def frameworkFor (basename : String) : Option String :=
  if basename = "package.json" then some "Node.js"
  else if basename = "daml.yaml" then some "Daml"
  else if basename = "build.sbt" then some "Scala"
  else if basename = "pom.xml" then some "Java/Maven"
  else if basename = "Cargo.toml" then some "Rust"
  else if basename = "go.mod" then some "Go"
  else if basename = "requirements.txt" then some "Python"
  else if basename = "pyproject.toml" then some "Python"
  else none

/-- `entry.path.split("/").pop() ?? ""`. -/
def pathBasename (p : String) : String :=
  (jsSplit p (Char.ofNat 47)).getLastD ""

/-- The language tags passing the 5% threshold.  The JavaScript test
`bytes / total > 0.05` is modelled by the exact-arithmetic equivalent
`20 * bytes > total` (for byte counts far from the boundary, as in all
realistic language maps, the double-precision division agrees with the
exact comparison). -/
def languageTags (langs : List (String × Nat)) : List String :=
  let total := (langs.map (·.2)).sum
  if total > 0 then
    (langs.filter fun lb => 20 * lb.2 > total).map (·.1)
  else []

/-- The framework tags detected from manifest basenames in the tree. -/
def frameworkTags (tree : List TreeEntry) : List String :=
  tree.flatMap fun e =>
    if e.type = "blob" then
      match frameworkFor (pathBasename e.path) with
      | some fw => [fw]
      | none => []
    else []

/-- `collectTechStack` from scripts/collect-github.ts: languages above
the 5% threshold (tolerating a failed languages call with a note),
unioned with framework tags, returned sorted (`[...stack].sort()`,
i.e. lexicographic string order). -/
def collectTechStack (langsResp : Except GHError (List (String × Nat)))
    (tree : List TreeEntry) : List String × List String :=
  let langTags :=
    match langsResp with
    | .ok langs => languageTags langs
    | .error _ => []
  let notes :=
    match langsResp with
    | .ok _ => []
    | .error e => ["Could not fetch languages: " ++ e.message]
  let stack := jsSetList (langTags ++ frameworkTags tree)
  (List.insertionSort jsStrLe stack, notes)

/-- A version string whose dot-separated components are all plain
digit strings — the domain on which `Number(...)` in `compareSemver`
is faithfully modelled by `toNatD`. -/
def numericVersion (s : String) : Bool :=
  (jsSplit s (Char.ofNat 46)).all allDigits

/-! ### Concrete records used as test inputs -/

/-- A minimal schema-conforming record, used as the base for the
concrete datasets below. -/
def blankProject : ObservatoryProject where
  project_id := "blank"
  display_name := "Blank"
  entity_name := none
  entity_jurisdiction := none
  foundation_member := false
  validator_status := .none
  website_url := none
  contact_url := none
  description := "A project"
  category := [.wallets]
  partnerships := []
  status := .unknown
  network := []
  canton_sdk_version := none
  last_verified_activity := none
  launch_date := none
  featured_app := none
  open_source := false
  repo_url := none
  license_type := none
  security_audit := none
  has_tests := none
  test_count := none
  has_ci := none
  ci_status := none
  has_documentation := false
  documentation_url := none
  tech_stack := []
  tx_count_30d := none
  tx_count_90d := none
  unique_parties_30d := none
  cc_burned_30d := none
  featured_markers_30d := none
  onchain_since := none
  created_at := "2025-01-01T00:00:00Z"
  updated_at := "2025-01-01T00:00:00Z"
  claimed := false
  claimed_by := none
  claimed_at := none
  data_confidence := []
  last_auto_refresh := none
  notes := none

/-- A record whose `website_url` holds a value while its confidence
entry is null — the reverse direction of the nullness biconditional. -/
def projLeaky : ObservatoryProject :=
  { blankProject with
    project_id := "leaky"
    website_url := some "https://example.com"
    data_confidence := [("website_url", none)] }

/-- A record referencing `projBeta` as a partner. -/
def projAlpha : ObservatoryProject :=
  { blankProject with project_id := "alpha", partnerships := ["beta"] }

/-- The record referenced by `projAlpha`. -/
def projBeta : ObservatoryProject :=
  { blankProject with project_id := "beta" }

/-- Tree with three subdirectory `daml.yaml` files. -/
def sdkExampleTree : List TreeEntry :=
  [⟨"a/daml.yaml", "blob", none⟩, ⟨"b/daml.yaml", "blob", none⟩,
   ⟨"c/daml.yaml", "blob", none⟩]

/-- File contents carrying SDK versions 2.7.0, 2.9.0 and 2.8.1. -/
def sdkExampleFiles (p : String) : Option String :=
  if p = "a/daml.yaml" then some "sdk-version: 2.7.0\n"
  else if p = "b/daml.yaml" then some "sdk-version: 2.9.0\n"
  else if p = "c/daml.yaml" then some "sdk-version: 2.8.1\n"
  else none

/-- Tree with one GitHub Actions workflow file. -/
def ciExampleTree : List TreeEntry :=
  [⟨".github/workflows/ci.yml", "blob", none⟩]

/-! ### Helper lemmas -/

theorem compareSemver_self (a : String) : compareSemver a a = 0 := by
  simp [compareSemver]

theorem compareSemver_le_total (a b : String) :
    compareSemver a b ≤ 0 ∨ compareSemver b a ≤ 0 := by
  simp only [compareSemver]
  split_ifs <;> omega

theorem compareSemver_le_trans {a b c : String}
    (hab : compareSemver a b ≤ 0) (hbc : compareSemver b c ≤ 0) :
    compareSemver a c ≤ 0 := by
  simp only [compareSemver] at hab hbc ⊢
  split_ifs at hab hbc ⊢ <;> omega

theorem semverLe_refl (a : String) : semverLe a a = true := by
  simp [semverLe, compareSemver_self]

instance : IsTotal String semverLeP :=
  ⟨fun a b => by
    simp only [semverLeP, semverLe, decide_eq_true_eq]
    exact compareSemver_le_total a b⟩

instance : IsTrans String semverLeP :=
  ⟨fun a b c hab hbc => by
    simp only [semverLeP, semverLe, decide_eq_true_eq] at hab hbc ⊢
    exact compareSemver_le_trans hab hbc⟩

theorem charListLe_total : ∀ as bs : List Char,
    charListLe as bs = true ∨ charListLe bs as = true := by
  intro as
  induction as with
  | nil => intro bs; left; rfl
  | cons a as ih =>
    intro bs
    cases bs with
    | nil => right; rfl
    | cons b bs =>
      simp only [charListLe]
      by_cases h1 : a.toNat < b.toNat
      · left; simp [h1]
      · by_cases h2 : b.toNat < a.toNat
        · right; simp [h2]
        · simpa [h1, h2] using ih bs

theorem charListLe_trans : ∀ as bs cs : List Char,
    charListLe as bs = true → charListLe bs cs = true →
    charListLe as cs = true := by
  intro as
  induction as with
  | nil => intro bs cs _ _; rfl
  | cons a as ih =>
    intro bs cs hab hbc
    cases bs with
    | nil => simp [charListLe] at hab
    | cons b bs =>
      cases cs with
      | nil => simp [charListLe] at hbc
      | cons c cs =>
        simp only [charListLe] at hab hbc ⊢
        by_cases g1 : a.toNat < b.toNat
        · by_cases g2 : b.toNat < c.toNat
          · have : a.toNat < c.toNat := by omega
            simp [this]
          · by_cases g3 : c.toNat < b.toNat
            · simp [g2, g3] at hbc
            · have : a.toNat < c.toNat := by omega
              simp [this]
        · by_cases g2 : b.toNat < a.toNat
          · simp [g1, g2] at hab
          · by_cases g3 : b.toNat < c.toNat
            · have : a.toNat < c.toNat := by omega
              simp [this]
            · by_cases g4 : c.toNat < b.toNat
              · simp [g3, g4] at hbc
              · have h5 : ¬ a.toNat < c.toNat := by omega
                have h6 : ¬ c.toNat < a.toNat := by omega
                simp only [g1, g2, if_neg, ite_false] at hab
                simp only [g3, g4, if_neg, ite_false] at hbc
                simp only [h5, h6, if_neg, ite_false]
                exact ih bs cs hab hbc

instance : IsTotal String jsStrLe :=
  ⟨fun a b => by
    simp only [jsStrLe, strLeB]
    exact charListLe_total a.toList b.toList⟩

instance : IsTrans String jsStrLe :=
  ⟨fun a b c hab hbc => by
    simp only [jsStrLe, strLeB] at hab hbc ⊢
    exact charListLe_trans a.toList b.toList c.toList hab hbc⟩

theorem mem_jsSetAddAll (a : String) : ∀ (xs acc : List String),
    a ∈ jsSetAddAll acc xs ↔ a ∈ acc ∨ a ∈ xs := by
  intro xs
  induction xs with
  | nil => intro acc; simp [jsSetAddAll]
  | cons x xs ih =>
    intro acc
    simp only [jsSetAddAll]
    rw [ih]
    by_cases hx : x ∈ acc
    · simp only [if_pos hx, List.mem_cons]
      constructor
      · rintro (h | h)
        · exact Or.inl h
        · exact Or.inr (Or.inr h)
      · rintro (h | h | h)
        · exact Or.inl h
        · exact Or.inl (h ▸ hx)
        · exact Or.inr h
    · simp only [if_neg hx, List.mem_append, List.mem_singleton,
        List.mem_cons]
      tauto

theorem mem_jsSetList {a : String} {xs : List String} :
    a ∈ jsSetList xs ↔ a ∈ xs := by
  simp [jsSetList, mem_jsSetAddAll]

theorem jsSetAddAll_length_le : ∀ (xs acc : List String),
    (jsSetAddAll acc xs).length ≤ acc.length + xs.length := by
  intro xs
  induction xs with
  | nil => intro acc; simp [jsSetAddAll]
  | cons x xs ih =>
    intro acc
    simp only [jsSetAddAll]
    refine le_trans (ih _) ?_
    by_cases hx : x ∈ acc
    · rw [if_pos hx]; simp only [List.length_cons]; omega
    · rw [if_neg hx]
      simp only [List.length_append, List.length_cons, List.length_singleton,
        List.length_nil]
      omega

theorem jsSetList_length_le (xs : List String) :
    (jsSetList xs).length ≤ xs.length := by
  simpa [jsSetList] using jsSetAddAll_length_le xs []

theorem pairwise_getLast?_max {α : Type} {r : α → α → Prop}
    (hrefl : ∀ x, r x x) :
    ∀ {l : List α} {m : α}, l.Pairwise r → l.getLast? = some m →
      ∀ x ∈ l, r x m := by
  intro l
  induction l with
  | nil => intro m _ h; simp at h
  | cons a t ih =>
    intro m hp hl x hx
    cases t with
    | nil =>
      simp only [List.getLast?_singleton, Option.some.injEq] at hl
      simp only [List.mem_singleton] at hx
      subst hl; subst hx
      exact hrefl _
    | cons b t' =>
      rw [List.getLast?_cons_cons] at hl
      have hm : m ∈ b :: t' := by
        obtain ⟨h, rfl⟩ :=
          List.mem_getLast?_eq_getLast (Option.mem_def.mpr hl)
        exact List.getLast_mem h
      rcases List.mem_cons.mp hx with rfl | hx'
      · exact (List.pairwise_cons.mp hp).1 m hm
      · exact ih (List.pairwise_cons.mp hp).2 hl x hx'

/-! ### Claim theorems -/

/-- Claim C2: `isValidTransition` returns true exactly for: null on
either side, identical tiers, any upgrade into "verified",
"verified" down to "self_reported", or "auto_detected" over to
"self_reported"; in particular both transitions into "auto_detected"
from a different non-null tier are rejected and everything is allowed
from a null tier. -/
theorem claim_C2_tier_transition :
    (∀ f t : Option ConfidenceTier,
      isValidTransition f t = true ↔
        (f = none ∨ t = none ∨ f = t ∨ t = some .verified ∨
         (f = some .verified ∧ t = some .self_reported) ∨
         (f = some .auto_detected ∧ t = some .self_reported))) ∧
    isValidTransition (some .verified) (some .auto_detected) = false ∧
    isValidTransition (some .self_reported) (some .auto_detected) = false ∧
    (∀ t : Option ConfidenceTier, isValidTransition none t = true) := by
  decide

/-- Claim C6: for every input, `validateDataset` returns an empty
error list exactly when the validity flag is true, and the empty
dataset validates with zero errors.  (The root-array requirement of
the external JSON Schema is modelled from the spec in `schemaCheck`,
so non-array input always carries at least one schema error.) -/
theorem claim_C6_valid_iff_errors_empty :
    (∀ d : DatasetInput,
      ((validateDataset d).errors = [] ↔ (validateDataset d).valid = true)) ∧
    validateDataset (.arr []) = ⟨true, []⟩ := by
  constructor
  · intro d
    cases d with
    | notArray => simp [validateDataset, schemaCheck]
    | arr ps =>
      show datasetErrors ps = [] ↔
        decide ((datasetErrors ps).length = 0) = true
      generalize datasetErrors ps = L
      simp [List.length_eq_zero]
  · decide

/-- Claim C8: the last-activity collector never throws for a
classified error: a 409 maps to a null field with an
"Empty repository" note, zero commits map to null with a
"No commits found" note, and any other classified error maps to null
with a diagnostic note (the model is a total function of the commit
call's classified outcome). -/
theorem claim_C8_last_activity :
    (∀ e : GHError, e.status = 409 →
      collectLastActivity (.error e) = (none, ["Empty repository"])) ∧
    collectLastActivity (.ok []) = (none, ["No commits found"]) ∧
    (∀ e : GHError, e.status ≠ 409 →
      collectLastActivity (.error e) =
        (none, ["Could not fetch commits: " ++ e.message])) := by
  refine ⟨?_, rfl, ?_⟩
  · intro e he
    simp [collectLastActivity, he]
  · intro e he
    simp [collectLastActivity, he]

/-- Witness for C8 at the concrete errors 409 and 500. -/
theorem claim_C8_witness :
    collectLastActivity (.error ⟨409, "Conflict (likely empty repository)", false⟩) =
      (none, ["Empty repository"]) ∧
    collectLastActivity (.error ⟨500, "Server error: 500", true⟩) =
      (none, ["Could not fetch commits: Server error: 500"]) :=
  ⟨claim_C8_last_activity.1 ⟨409, "Conflict (likely empty repository)", false⟩ rfl,
   claim_C8_last_activity.2.2 ⟨500, "Server error: 500", true⟩ (by decide)⟩

/-- Claim C10: on an empty file tree, the tests collector reports
`has_tests` and `test_count` both null and the CI collector reports
`has_ci` and `ci_status` both null — unknown, not a definitive
negative. -/
theorem claim_C10_empty_tree_unknown :
    (∀ truncated : Bool, collectTests [] truncated = (none, none, [])) ∧
    (∀ (runsResp : Except GHError (List WorkflowRun)) (now : Int),
      collectCi [] runsResp now = (none, none, [])) := by
  exact ⟨fun _ => rfl, fun _ _ => rfl⟩

/-- Claim C1 (code bug): `validateDataset` accepts the dataset
`[projLeaky]` although `projLeaky.website_url` holds a value while its
confidence-map entry is null — the reverse direction of the
biconditional is not checked by `checkConfidenceKeys`, even though the
confidence module's own `validateConfidenceMap` (not called by
`validateDataset`) flags exactly this record. -/
theorem claim_C1_biconditional_code_bug :
    (validateDataset (.arr [projLeaky])).valid = true ∧
    "website_url" ∉ OBSERVATORY_MANAGED_FIELDS ∧
    "website_url" ∈ projectFieldNames ∧
    projLeaky.data_confidence = [("website_url", none)] ∧
    fieldIsNull projLeaky "website_url" = false ∧
    validateConfidenceMap projLeaky =
      ["Field \"website_url\" has value but confidence tier is null"] := by
  refine ⟨by decide, by decide, by decide, rfl, by decide, by decide⟩

/-- Claim C9: in every dataset accepted by `validateDataset`, every
partnership entry of every record resolves to the `project_id` of some
record of the same dataset. -/
theorem claim_C9_partnership_closure :
    ∀ (ps : List ObservatoryProject),
      (validateDataset (.arr ps)).valid = true →
      ∀ p ∈ ps, ∀ partner ∈ p.partnerships,
        ∃ q ∈ ps, q.project_id = partner := by
  intro ps hvalid p hp partner hpart
  have hnil : datasetErrors ps = [] :=
    List.length_eq_zero.mp (of_decide_eq_true hvalid)
  simp only [datasetErrors, List.append_eq_nil] at hnil
  have hrefs : checkPartnershipRefs ps = [] := hnil.1.1.2
  simp only [checkPartnershipRefs] at hrefs
  have h1 := (List.flatMap_eq_nil_iff.mp hrefs) p hp
  have h2 := (List.flatMap_eq_nil_iff.mp h1) partner hpart
  by_cases hmem : partner ∈ ps.map (·.project_id)
  · obtain ⟨q, hq, hq2⟩ := List.mem_map.mp hmem
    exact ⟨q, hq, hq2⟩
  · rw [if_pos hmem] at h2
    simp at h2

/-- Witness for C9: the two-record dataset `[projAlpha, projBeta]`
validates, and the theorem resolves `projAlpha`'s partnership entry
"beta" to a record of the dataset. -/
theorem claim_C9_witness :
    ∃ q ∈ [projAlpha, projBeta], q.project_id = "beta" :=
  claim_C9_partnership_closure [projAlpha, projBeta] (by decide)
    projAlpha (by decide) "beta" (by decide)

/-- Claim C3: with the root config absent, whenever the tree scan
collects at least one parseable version the collector reports a
maximum under the `compareSemver` ordering (first three numeric
dot-components, missing treated as 0); with more than one distinct
version it additionally pushes a note listing them; and on versions
2.7.0 / 2.9.0 / 2.8.1 it reports 2.9.0. -/
theorem claim_C3_sdk_version_max :
    (∀ (tree : List TreeEntry) (files : String → Option String),
      sdkVersionsFound tree files ≠ [] →
      (sdkVersionsFound tree files).all numericVersion = true →
      ∃ v, (collectSdkVersion none tree files).1 = some v ∧
        v ∈ sdkVersionsFound tree files ∧
        ∀ w ∈ sdkVersionsFound tree files, semverLe w v = true) ∧
    (∀ (tree : List TreeEntry) (files : String → Option String),
      (jsSetList (sdkVersionsFound tree files)).length > 1 →
      (collectSdkVersion none tree files).2 =
        ["Multiple SDK versions detected: " ++
         String.intercalate ", " (jsSetList (sdkVersionsFound tree files))]) ∧
    collectSdkVersion none sdkExampleTree sdkExampleFiles =
      (some "2.9.0", ["Multiple SDK versions detected: 2.7.0, 2.9.0, 2.8.1"]) := by
  refine ⟨?_, ?_, by decide⟩
  · intro tree files hne _hnum
    have hdaml : damlYamlPaths tree ≠ [] := by
      intro h
      exact hne (by simp [sdkVersionsFound, h])
    have hcoll : collectSdkVersion none tree files =
        collectSdkFallback tree files := rfl
    rw [hcoll]
    simp only [collectSdkFallback]
    rw [if_neg hdaml, if_neg hne]
    have hS : List.insertionSort semverLeP (sdkVersionsFound tree files) ≠ [] := by
      intro h
      apply hne
      have := (List.perm_insertionSort semverLeP
        (sdkVersionsFound tree files)).length_eq
      rw [h] at this
      exact List.length_eq_zero.mp this.symm
    refine ⟨(List.insertionSort semverLeP (sdkVersionsFound tree files)).getLast hS,
      List.getLast?_eq_getLast _ hS, ?_, ?_⟩
    · exact (List.mem_insertionSort semverLeP).mp (List.getLast_mem hS)
    · intro w hw
      exact pairwise_getLast?_max (r := semverLeP) semverLe_refl
        (List.sorted_insertionSort semverLeP (sdkVersionsFound tree files))
        (List.getLast?_eq_getLast _ hS) w
        ((List.mem_insertionSort semverLeP).mpr hw)
  · intro tree files hu
    have hV : sdkVersionsFound tree files ≠ [] := by
      intro h
      rw [h] at hu
      simp [jsSetList, jsSetAddAll] at hu
    have hdaml : damlYamlPaths tree ≠ [] := by
      intro h
      exact hV (by simp [sdkVersionsFound, h])
    have hlen : (sdkVersionsFound tree files).length > 1 :=
      lt_of_lt_of_le hu (jsSetList_length_le _)
    have hcoll : collectSdkVersion none tree files =
        collectSdkFallback tree files := rfl
    rw [hcoll]
    simp only [collectSdkFallback]
    rw [if_neg hdaml, if_neg hV, if_pos hlen, if_pos hu]

/-- Witness for C3: the scan of `sdkExampleTree` finds a nonempty list
of numeric versions, and the theorem yields its reported maximum. -/
theorem claim_C3_witness :
    ∃ v, (collectSdkVersion none sdkExampleTree sdkExampleFiles).1 = some v ∧
      v ∈ sdkVersionsFound sdkExampleTree sdkExampleFiles ∧
      ∀ w ∈ sdkVersionsFound sdkExampleTree sdkExampleFiles,
        semverLe w v = true :=
  claim_C3_sdk_version_max.1 sdkExampleTree sdkExampleFiles
    (by decide) (by decide)

/-- Claim C4: for a repository with GitHub Actions CI and an available
latest completed run, a run whose age in floored days exceeds 90 is
reported "stale" regardless of conclusion (91 whole days is stale),
while at 89 days the status follows the conclusion
(success → passing, failure → failing, other → unknown), and with no
completed runs the status is "unknown". -/
theorem claim_C4_ci_staleness :
    ∀ (tree : List TreeEntry) (now : Int),
      ciConfigFiles tree ≠ [] →
      (ciConfigFiles tree).any
        (fun f => strStartsWith f.path ".github/workflows/") = true →
      (collectCi tree (.ok []) now = (some true, some .unknown, [])) ∧
      (∀ (c : String) (upd : Int) (rest : List WorkflowRun),
        (now - upd).fdiv MS_PER_DAY > STALE_CI_DAYS →
        (collectCi tree (.ok (⟨c, upd⟩ :: rest)) now).2.1 = some .stale) ∧
      (∀ (c : String) (rest : List WorkflowRun) (upd : Int),
        now - upd = 91 * MS_PER_DAY →
        (collectCi tree (.ok (⟨c, upd⟩ :: rest)) now).2.1 = some .stale) ∧
      (∀ (upd : Int) (rest : List WorkflowRun),
        now - upd = 89 * MS_PER_DAY →
        (collectCi tree (.ok (⟨"success", upd⟩ :: rest)) now).2.1 =
          some .passing ∧
        (collectCi tree (.ok (⟨"failure", upd⟩ :: rest)) now).2.1 =
          some .failing ∧
        (∀ c : String, c ≠ "success" → c ≠ "failure" →
          (collectCi tree (.ok (⟨c, upd⟩ :: rest)) now).2.1 =
            some .unknown)) := by
  intro tree now hcf hgh
  have htree : ¬ tree.length = 0 := by
    intro h
    rw [List.length_eq_zero.mp h] at hcf
    exact hcf rfl
  have hlen : ¬ (ciConfigFiles tree).length = 0 :=
    fun h => hcf (List.length_eq_zero.mp h)
  have hno : ¬ ¬ (ciConfigFiles tree).any
      (fun f => strStartsWith f.path ".github/workflows/") = true :=
    fun hn => hn hgh
  have hb : ∀ (c : String) (upd : Int) (rest : List WorkflowRun),
      (now - upd).fdiv MS_PER_DAY > STALE_CI_DAYS →
      (collectCi tree (.ok (⟨c, upd⟩ :: rest)) now).2.1 = some .stale := by
    intro c upd rest hdays
    simp only [collectCi]
    rw [if_neg htree, if_neg hlen, if_neg hno]
    simp only [List.head?]
    rw [if_pos hdays]
  refine ⟨?_, hb, fun c rest upd heq => hb c upd rest ?_, ?_⟩
  · simp only [collectCi]
    rw [if_neg htree, if_neg hlen, if_neg hno]
    rfl
  · rw [heq]; decide
  · intro upd rest heq
    have hdays : (now - upd).fdiv MS_PER_DAY = 89 := by
      rw [heq]; decide
    have hnot : ¬ (now - upd).fdiv MS_PER_DAY > STALE_CI_DAYS := by
      rw [hdays]; decide
    refine ⟨?_, ?_, ?_⟩
    · simp only [collectCi]
      rw [if_neg htree, if_neg hlen, if_neg hno]
      simp only [List.head?]
      rw [if_neg hnot]
      simp
    · simp only [collectCi]
      rw [if_neg htree, if_neg hlen, if_neg hno]
      simp only [List.head?]
      rw [if_neg hnot]
      simp
    · intro c hc1 hc2
      simp only [collectCi]
      rw [if_neg htree, if_neg hlen, if_neg hno]
      simp only [List.head?]
      rw [if_neg hnot]
      simp only [if_neg hc1, if_neg hc2]

/-- Witness for C4: one workflow file, latest run concluded "success";
at 91 whole days of age the status is "stale", at 89 days it is
"passing". -/
theorem claim_C4_witness :
    (collectCi ciExampleTree (.ok [⟨"success", 0⟩])
      (91 * MS_PER_DAY)).2.1 = some .stale ∧
    (collectCi ciExampleTree (.ok [⟨"success", 2 * MS_PER_DAY⟩])
      (91 * MS_PER_DAY)).2.1 = some .passing :=
  ⟨(claim_C4_ci_staleness ciExampleTree (91 * MS_PER_DAY) (by decide)
      (by decide)).2.2.1 "success" [] 0 (by decide),
   ((claim_C4_ci_staleness ciExampleTree (91 * MS_PER_DAY) (by decide)
      (by decide)).2.2.2 (2 * MS_PER_DAY) [] (by decide)).1⟩

/-- Claim C7: with a positive byte total, a language is included
exactly when its byte count strictly exceeds 5% of the total
(`20 * bytes > total` in exact arithmetic), unioned with the
ecosystem tags of every manifest basename in the tree; the result is
sorted; and `{A: 8000, B: 1500, C: 200}` yields A and B but not C. -/
theorem claim_C7_tech_stack_threshold :
    (∀ (langs : List (String × Nat)) (tree : List TreeEntry) (x : String),
      (langs.map (·.2)).sum > 0 →
      (x ∈ (collectTechStack (.ok langs) tree).1 ↔
        ((∃ b, (x, b) ∈ langs ∧ 20 * b > (langs.map (·.2)).sum) ∨
         (∃ e ∈ tree, e.type = "blob" ∧
           frameworkFor (pathBasename e.path) = some x)))) ∧
    (∀ (langsResp : Except GHError (List (String × Nat)))
        (tree : List TreeEntry),
      List.Sorted jsStrLe (collectTechStack langsResp tree).1) ∧
    (collectTechStack (.ok [("A", 8000), ("B", 1500), ("C", 200)]) []).1 =
      ["A", "B"] := by
  refine ⟨?_, ?_, by decide⟩
  · intro langs tree x htot
    have hlang : x ∈ languageTags langs ↔
        ∃ b, (x, b) ∈ langs ∧ 20 * b > (langs.map (·.2)).sum := by
      simp only [languageTags]
      rw [if_pos htot]
      simp only [List.mem_map, List.mem_filter]
      constructor
      · rintro ⟨⟨px, pb⟩, ⟨hp, hgt⟩, h⟩
        subst h
        exact ⟨pb, hp, of_decide_eq_true hgt⟩
      · rintro ⟨b, hb, hgt⟩
        exact ⟨(x, b), ⟨hb, decide_eq_true hgt⟩, rfl⟩
    have hfw : x ∈ frameworkTags tree ↔
        ∃ e ∈ tree, e.type = "blob" ∧
          frameworkFor (pathBasename e.path) = some x := by
      simp only [frameworkTags, List.mem_flatMap]
      constructor
      · rintro ⟨e, he, hx⟩
        by_cases hb : e.type = "blob"
        · rw [if_pos hb] at hx
          cases hf : frameworkFor (pathBasename e.path) with
          | none => rw [hf] at hx; simp at hx
          | some fw =>
            rw [hf] at hx
            simp only [List.mem_singleton] at hx
            exact ⟨e, he, hb, by rw [hf, hx]⟩
        · rw [if_neg hb] at hx
          simp at hx
      · rintro ⟨e, he, hb, hf⟩
        refine ⟨e, he, ?_⟩
        rw [if_pos hb, hf]
        simp
    simp only [collectTechStack, List.mem_insertionSort]
    rw [mem_jsSetList, List.mem_append, hlang, hfw]
  · intro lr tree
    simp only [collectTechStack]
    exact List.sorted_insertionSort jsStrLe _

/-- Witness for C7: language A (8000 of 9700 bytes) is in the
reported stack. -/
theorem claim_C7_witness :
    "A" ∈ (collectTechStack (.ok [("A", 8000), ("B", 1500), ("C", 200)]) []).1 :=
  (claim_C7_tech_stack_threshold.1 [("A", 8000), ("B", 1500), ("C", 200)]
    [] "A" (by decide)).mpr (Or.inl ⟨8000, by decide, by decide⟩)

theorem ghGetFrom_attempts_le (f : Nat → Outcome) (now : Int) :
    ∀ (fuel attempt : Nat) (rl : RateLimitState) (le : Option GHError),
      (ghGetFrom f now fuel attempt rl le).attempts ≤ fuel := by
  intro fuel
  induction fuel with
  | zero => intro attempt rl le; simp [ghGetFrom]
  | succ n ih =>
    intro attempt rl le
    simp only [ghGetFrom]
    split
    · split
      · simp
      · dsimp only
        exact Nat.succ_le_succ (ih _ _ _)
    · split_ifs <;> dsimp only <;>
        first
          | omega
          | exact Nat.succ_le_succ (ih _ _ _)

/-- Claim C5: `GitHubClient.get` performs at most 4 attempts; a 404
(after any prefix of retried 5xx responses) surfaces the non-retryable
"Not found" error immediately with no further attempts; with 5xx on
every attempt, all 4 attempts are consumed before the retryable server
error surfaces; and the backoff waits before the 2nd, 3rd and 4th
attempts are 1000, 2000 and 4000 ms. -/
theorem claim_C5_retry_policy :
    (∀ (f : Nat → Outcome) (now : Int), (ghGet f now).attempts ≤ 4) ∧
    (∀ (f : Nat → Outcome) (now : Int) (k : Nat), k ≤ 3 →
      (∀ j, j < k → f j = .resp 500 none none) →
      f k = .resp 404 none none →
      (ghGet f now).attempts = k + 1 ∧
      (ghGet f now).result = .error ⟨404, "Not found", false⟩ ∧
      (ghGet f now).backoffSleeps =
        (List.range k).map (fun i => 1000 * 2 ^ i)) ∧
    (∀ (f : Nat → Outcome) (now : Int),
      (∀ j, j ≤ 3 → f j = .resp 500 none none) →
      (ghGet f now).attempts = 4 ∧
      (ghGet f now).result = .error ⟨500, "Server error: 500", true⟩ ∧
      (ghGet f now).backoffSleeps = [1000, 2000, 4000]) := by
  have hmsg : "Server error: " ++ natDecimal 500 = "Server error: 500" := by
    decide
  refine ⟨?_, ?_, ?_⟩
  · intro f now
    exact ghGetFrom_attempts_le f now (MAX_RETRIES + 1) 0 ⟨5000, 0⟩ none
  · intro f now k hk h5 h4
    interval_cases k
    · refine ⟨?_, ?_, ?_⟩ <;>
        simp [ghGet, MAX_RETRIES, ghGetFrom, h4, updateRateLimit,
          paceSleeps, RATE_LIMIT_THRESHOLD]
    · refine ⟨?_, ?_, ?_⟩ <;>
        simp [ghGet, MAX_RETRIES, ghGetFrom, h5 0 (by omega), h4,
          updateRateLimit, paceSleeps, RATE_LIMIT_THRESHOLD,
          INITIAL_BACKOFF_MS, List.range_succ]
    · refine ⟨?_, ?_, ?_⟩ <;>
        simp [ghGet, MAX_RETRIES, ghGetFrom, h5 0 (by omega),
          h5 1 (by omega), h4, updateRateLimit, paceSleeps,
          RATE_LIMIT_THRESHOLD, INITIAL_BACKOFF_MS, List.range_succ]
    · refine ⟨?_, ?_, ?_⟩ <;>
        simp [ghGet, MAX_RETRIES, ghGetFrom, h5 0 (by omega),
          h5 1 (by omega), h5 2 (by omega), h4, updateRateLimit,
          paceSleeps, RATE_LIMIT_THRESHOLD, INITIAL_BACKOFF_MS,
          List.range_succ]
  · intro f now h
    refine ⟨?_, ?_, ?_⟩ <;>
      simp [ghGet, MAX_RETRIES, ghGetFrom, h 0 (by omega), h 1 (by omega),
        h 2 (by omega), h 3 (by omega), updateRateLimit, paceSleeps,
        RATE_LIMIT_THRESHOLD, INITIAL_BACKOFF_MS, hmsg]

/-- Witness for C5: a first-attempt 404 surfaces "Not found"; four
5xx responses consume 4 attempts with backoff 1000/2000/4000 ms. -/
theorem claim_C5_witness :
    (ghGet (fun _ => .resp 404 none none) 0).result =
      .error ⟨404, "Not found", false⟩ ∧
    (ghGet (fun _ => .resp 500 none none) 0).attempts = 4 ∧
    (ghGet (fun _ => .resp 500 none none) 0).backoffSleeps =
      [1000, 2000, 4000] :=
  ⟨(claim_C5_retry_policy.2.1 (fun _ => .resp 404 none none) 0 0
      (by omega) (fun j hj => absurd hj (by omega)) rfl).2.1,
   (claim_C5_retry_policy.2.2 (fun _ => .resp 500 none none) 0
      (fun j _ => rfl)).1,
   (claim_C5_retry_policy.2.2 (fun _ => .resp 500 none none) 0
      (fun j _ => rfl)).2.2⟩

/-- Regression check mirroring the repository's own test suite. -/
theorem regression_check_01 : isValidTransition (some .verified) (some .auto_detected) = false := by decide
/-- Regression check mirroring the repository's own test suite. -/
theorem regression_check_02 : isValidTransition none (some .auto_detected) = true := by decide
/-- Regression check mirroring the repository's own test suite. -/
theorem regression_check_03 : (validateDataset (.arr [projAlpha, projBeta])).valid = true := by decide
/-- Regression check mirroring the repository's own test suite. -/
theorem regression_check_04 : (validateDataset (.arr [projLeaky])).valid = true := by decide
/-- Regression check mirroring the repository's own test suite. -/
theorem regression_check_05 : validateConfidenceMap projLeaky =
    ["Field \"website_url\" has value but confidence tier is null"] := by decide
/-- Regression check mirroring the repository's own test suite. -/
theorem regression_check_06 : parseSdkVersion "sdk-version: 2.9.0\nname: my-app\n" = some "2.9.0" := by decide
/-- Regression check mirroring the repository's own test suite. -/
theorem regression_check_07 : parseSdkVersion "name: my-app\nversion: 1.0.0\n" = none := by decide
/-- Regression check mirroring the repository's own test suite. -/
theorem regression_check_08 : parseSdkVersion "sdk-version:  2.8.1 \n" = some "2.8.1" := by decide
/-- Regression check mirroring the repository's own test suite. -/
theorem regression_check_09 : compareSemver "2.7.0" "2.9.0" = -2 := by decide
/-- Regression check mirroring the repository's own test suite. -/
theorem regression_check_10 : compareSemver "2.8.1" "2.9.0" = -1 := by decide
/-- Regression check mirroring the repository's own test suite. -/
theorem regression_check_11 : compareSemver "2" "2.0.0" = 0 := by decide
/-- Regression check mirroring the repository's own test suite. -/
theorem regression_check_12 :
    collectTests
      [⟨"src/MainTest.daml", "blob", none⟩, ⟨"src/UtilsTest.daml", "blob", none⟩,
       ⟨"src/Main.daml", "blob", none⟩] false =
    (some true, some 2, ["Found 2 test files (approximate count)"]) := by decide
/-- Regression check mirroring the repository's own test suite. -/
theorem regression_check_13 :
    collectTests [⟨"fixtures/TestData.png", "blob", none⟩] false =
    (some false, none, []) := by decide
/-- Regression check mirroring the repository's own test suite. -/
theorem regression_check_14 :
    collectTests [⟨"tests/test_main.py", "blob", none⟩,
      ⟨"tests/utils_test.py", "blob", none⟩] false =
    (some true, some 2, ["Found 2 test files (approximate count)"]) := by decide
/-- Regression check mirroring the repository's own test suite. -/
theorem regression_check_15 :
    (collectTechStack (.ok [("Haskell", 8000), ("JavaScript", 1500), ("Shell", 200)])
      [⟨"daml.yaml", "blob", none⟩, ⟨"package.json", "blob", none⟩]).1 =
    ["Daml", "Haskell", "JavaScript", "Node.js"] := by decide
/-- Regression check mirroring the repository's own test suite. -/
theorem regression_check_16 :
    (ghGet (fun _ => .resp 500 none none) 0).attempts = 4 := by decide
/-- Regression check mirroring the repository's own test suite. -/
theorem regression_check_17 :
    (ghGet (fun _ => .resp 500 none none) 0).backoffSleeps = [1000, 2000, 4000] := by decide
/-- Regression check mirroring the repository's own test suite. -/
theorem regression_check_18 :
    (ghGet (fun _ => .resp 404 none none) 0).attempts = 1 := by decide
/-- Regression check mirroring the repository's own test suite. -/
theorem regression_check_19 :
    (collectSdkVersion none
      [⟨"a/daml.yaml", "blob", none⟩, ⟨"b/daml.yaml", "blob", none⟩,
       ⟨"c/daml.yaml", "blob", none⟩]
      (fun p =>
        if p = "a/daml.yaml" then some "sdk-version: 2.7.0\n"
        else if p = "b/daml.yaml" then some "sdk-version: 2.9.0\n"
        else if p = "c/daml.yaml" then some "sdk-version: 2.8.1\n"
        else none)) =
    (some "2.9.0",
     ["Multiple SDK versions detected: 2.7.0, 2.9.0, 2.8.1"]) := by decide
/-- Regression check mirroring the repository's own test suite. -/
theorem regression_check_20 : validateDataset (.arr []) = ⟨true, []⟩ := by decide
/-- Regression check mirroring the repository's own test suite. -/
theorem regression_check_21 : isValidProjectId "canton-patterns" = true := by decide
/-- Regression check mirroring the repository's own test suite. -/
theorem regression_check_22 : isValidProjectId "-bad" = false := by decide
/-- Regression check mirroring the repository's own test suite. -/
theorem regression_check_23 : jsDateParses "2025-01-01T00:00:00Z" = true := by decide
/-- Regression check mirroring the repository's own test suite. -/
theorem regression_check_24 : jsDateParses "2025-13-01" = false := by decide
